import Mathlib

/-! # netReg: model data container, fit entry point and model selection

A shallow embedding of the netReg sources

* `src/linear_model_data.hpp`        (container constructor and getters),
* `src/netReg.cpp`, `src/netReg_wrapper.cpp` (entry points `edgenet`, `cv_edgenet`),
* `src/edgenet_model_selection_wrapper.cpp` (`regularization_path`).

Conventions of the embedding.

* A `double` is modelled by an exact rational `ℚ`; rounding, NaN and Inf are
  outside the model.
* A `double*` / `int*` buffer is a `List`; cell `k` of buffer `b` is
  `b.getD k 0`.  Reading a cell past the end of a buffer is undefined in C++;
  the model yields `0` there.
* The dimensions `n`, `p`, `q` are natural numbers.
* An Armadillo matrix is its dimensions together with its column-major memory
  (`memptr()`): element `(i, j)` lives in cell `i + n_rows * j`.
-/

namespace netreg

/-! ## Armadillo matrices (external library, documented semantics) -/

/-- Dense matrix `arma::Mat<double>`: dimensions and column-major memory. -/
structure Mat where
  n_rows : Nat
  n_cols : Nat
  mem : List ℚ
deriving DecidableEq

namespace Mat

/-- Element access `M(i, j)`: cell `i + n_rows * j` of the memory. -/
def elem (M : Mat) (i j : Nat) : ℚ := M.mem.getD (i + M.n_rows * j) 0

/-- The constructor `mat(ptr, n_rows, n_cols)`: copies `n_rows * n_cols` cells
from the buffer. -/
def ofBuffer (x : List ℚ) (n_rows n_cols : Nat) : Mat :=
  { n_rows := n_rows, n_cols := n_cols,
    mem := (List.range (n_rows * n_cols)).map (fun k => x.getD k 0) }

/-- The constructor `mat(n_rows, n_cols)`: storage that is not initialised;
`junk` stands for whatever the fresh storage holds. -/
def uninit (junk : Nat → ℚ) (n_rows n_cols : Nat) : Mat :=
  { n_rows := n_rows, n_cols := n_cols,
    mem := (List.range (n_rows * n_cols)).map junk }

/-- The constructor `mat(n_rows, n_cols, arma::fill::ones)`. -/
def ones (n_rows n_cols : Nat) : Mat :=
  { n_rows := n_rows, n_cols := n_cols,
    mem := List.replicate (n_rows * n_cols) 1 }

/-- Transposition `M.t()`: cell `k` of the result is row `k % n_cols`, column
`k / n_cols` of the result, that is element `(k / n_cols, k % n_cols)` of `M`. -/
def t (M : Mat) : Mat :=
  { n_rows := M.n_cols, n_cols := M.n_rows,
    mem := (List.range (M.n_cols * M.n_rows)).map
      (fun k => M.elem (k / M.n_cols) (k % M.n_cols)) }

/-- Matrix product `A * B`: cell `k` of the result is row `k % A.n_rows`,
column `k / A.n_rows`, the inner product of that row of `A` with that column
of `B`. -/
def mul (A B : Mat) : Mat :=
  { n_rows := A.n_rows, n_cols := B.n_cols,
    mem := (List.range (A.n_rows * B.n_cols)).map
      (fun k => ((List.range A.n_cols).map
        (fun s => A.elem (k % A.n_rows) s * B.elem s (k / A.n_rows))).sum) }

end Mat

/-- Column vector `arma::Col<double>` built by `vec(n)`: `n` cells that are
not initialised. -/
def cvector_uninit (junk : Nat → ℚ) (n : Nat) : List ℚ :=
  (List.range n).map junk

/-! ## `family.hpp` -/

/-- Modelled from the spec: the enumeration `family` of `family.hpp` (header
not among the sources); the spec gives the closed set {Gaussian, Binomial}. -/
inductive family where
  | GAUSSIAN
  | BINOMIAL
deriving DecidableEq

/-! ## `linear_model_data.hpp` -/

/-- The data members of class `linear_model_data`. -/
structure linear_model_data where
  N : Nat
  P : Nat
  Q : Nat
  X : Mat
  Y : Mat
  intrcpt : List ℚ
  coeffs : Mat
  THRESH : ℚ
  N_ITER : Int
  TXX : Mat
  TXY : Mat
  family_ : family
deriving DecidableEq

namespace linear_model_data

/-- The constructor `linear_model_data(x, y, n, p, q, niter, thresh, fam)`.
The member initialisers run first (`TXX(p, p)` and `TXY(p, q)` without
initial values), then the body computes `TX = X.t()`, `TXX = TX * X`,
`TXY = TX * Y`. -/
def ctor (junk : Nat → ℚ) (x y : List ℚ) (n p q : Nat)
    (niter : Int) (thresh : ℚ) (fam : family) : linear_model_data :=
  let X := Mat.ofBuffer x n p
  let Y := Mat.ofBuffer y n q
  let init : linear_model_data :=
    { N := n, P := p, Q := q, X := X, Y := Y,
      intrcpt := cvector_uninit junk q,
      coeffs := Mat.ones p q,
      THRESH := thresh, N_ITER := niter,
      TXX := Mat.uninit junk p p, TXY := Mat.uninit junk p q,
      family_ := fam }
  let TX := init.X.t
  { init with TXX := TX.mul init.X, TXY := TX.mul init.Y }

/-- Getter `sample_count()`. -/
def sample_count (d : linear_model_data) : Nat := d.N
/-- Getter `response_count()`. -/
def response_count (d : linear_model_data) : Nat := d.Q
/-- Getter `covariable_count()`. -/
def covariable_count (d : linear_model_data) : Nat := d.P
/-- Getter `coefficients(i, j)`. -/
def coefficients_at (d : linear_model_data) (i j : Nat) : ℚ := d.coeffs.elem i j
/-- Getter `intercept()`. -/
def intercept (d : linear_model_data) : List ℚ := d.intrcpt
/-- Getter `design()`. -/
def design (d : linear_model_data) : Mat := d.X
/-- Getter `coefficients()`. -/
def coefficients (d : linear_model_data) : Mat := d.coeffs
/-- Getter `txx()`. -/
def txx (d : linear_model_data) : Mat := d.TXX
/-- Getter `max_iter()`. -/
def max_iter (d : linear_model_data) : Int := d.N_ITER
/-- Getter `threshold()`. -/
def threshold (d : linear_model_data) : ℚ := d.THRESH

end linear_model_data

/-! ## Containers whose headers are not among the sources -/

/-- Modelled from the spec: class `graph_penalized_linear_model_data`
(`graph_penalized_linear_model_data.hpp` is not among the sources).  Per the
spec the model data container owns the design and response matrices, the
cross-products and the coefficient state (the base class
`linear_model_data`, which is among the sources) together with the two prior
graphs and the shrinkage values of one hyperparameter configuration. -/
structure graph_penalized_linear_model_data where
  base : linear_model_data
  GX : Mat
  GY : Mat
  lambda : ℚ
  alpha : ℚ
  psigx : ℚ
  psigy : ℚ
deriving DecidableEq

/-- Modelled from the spec: the constructor call
`graph_penalized_linear_model_data(X, Y, GX, GY, N, P, Q, lambda, alpha,
psigx, psigy, niter, thresh, family)`; it runs the base-class constructor of
`linear_model_data.hpp` and keeps the graphs and shrinkage values. -/
def graph_penalized_linear_model_data.ctor (junk : Nat → ℚ)
    (x y gx gy : List ℚ) (n p q : Nat) (lambda alpha psigx psigy : ℚ)
    (niter : Int) (thresh : ℚ) (fam : family) :
    graph_penalized_linear_model_data :=
  { base := linear_model_data.ctor junk x y n p q niter thresh fam,
    GX := Mat.ofBuffer gx p p, GY := Mat.ofBuffer gy q q,
    lambda := lambda, alpha := alpha, psigx := psigx, psigy := psigy }

/-- Modelled from the spec: class `graph_penalized_linear_model_cv_data`
(`graph_penalized_linear_model_cv_data.hpp` is not among the sources): the
model data container extended with a fold-assignment vector. -/
structure graph_penalized_linear_model_cv_data where
  model : graph_penalized_linear_model_data
  fold_ids_ : List Int
deriving DecidableEq

namespace graph_penalized_linear_model_cv_data

/-- Modelled from the spec: the constructor overload that takes the caller's
fold assignment `int* fold_ids`; the assignment of the `n` samples is used
verbatim. -/
def ctor_fold_ids (junk : Nat → ℚ)
    (x y gx gy : List ℚ) (n p q : Nat) (lambda alpha psigx psigy : ℚ)
    (niter : Int) (thresh : ℚ) (fold_ids : List Int) (fam : family) :
    graph_penalized_linear_model_cv_data :=
  { model := graph_penalized_linear_model_data.ctor junk x y gx gy n p q
      lambda alpha psigx psigy niter thresh fam,
    fold_ids_ := (List.range n).map (fun i => fold_ids.getD i 0) }

/-- Modelled from the spec: the constructor overload that takes the fold
count `int nfold`; the assignment is generated.  The generator (even
partition, possibly shuffled) is the parameter `make_folds n nfold`. -/
def ctor_nfold (make_folds : Nat → Int → List Int) (junk : Nat → ℚ)
    (x y gx gy : List ℚ) (n p q : Nat) (lambda alpha psigx psigy : ℚ)
    (niter : Int) (thresh : ℚ) (nfold : Int) (fam : family) :
    graph_penalized_linear_model_cv_data :=
  { model := graph_penalized_linear_model_data.ctor junk x y gx gy n p q
      lambda alpha psigx psigy niter thresh fam,
    fold_ids_ := make_folds n nfold }

/-- Getter `fold_ids()`. -/
def fold_ids (d : graph_penalized_linear_model_cv_data) : List Int := d.fold_ids_

/-- Getter `distribution_family()`. -/
def distribution_family (d : graph_penalized_linear_model_cv_data) : family :=
  d.model.base.family_

end graph_penalized_linear_model_cv_data

/-! ## `edgenet_model_selection_wrapper.cpp` -/

/-- The loss classes an optimizer call can be instantiated with.
`edgenet_gaussian_loss_function` is the one the sources name.  Modelled from
the spec: `edgenet_binomial_loss_function`, the binomial negative
log-likelihood loss of the spec, which no source file names. -/
inductive loss_function where
  | edgenet_gaussian_loss_function
  | edgenet_binomial_loss_function
deriving DecidableEq

/-- The arguments of one call `opt.bobyqa<Loss>(data, start, lower_bound,
upper_bound, rad_start, rad_end, niter)`. -/
structure bobyqa_call where
  loss : loss_function
  data : graph_penalized_linear_model_cv_data
  start : List ℚ
  lower_bound : List ℚ
  upper_bound : List ℚ
  rad_start : ℚ
  rad_end : ℚ
  niter : Int
deriving DecidableEq

/-- Class `optim` (`optim.hpp` is not among the sources): the optimizer is a
parameter, a function from the arguments of a `bobyqa` call to the point it
returns, in the order (lambda, psi_gx, psi_gy). -/
abbrev optim := bobyqa_call → List ℚ

/-- The list `regularization_path` returns: `parameters` and `folds`. -/
structure path_result where
  parameters : List ℚ
  folds : List Int
deriving DecidableEq

/-- The function `edgenet_model_selection_wrapper::regularization_path(data)`.
The `switch` has the two labels `case family::GAUSSIAN:` and `default:` on
one block. -/
def regularization_path (opt : optim)
    (data : graph_penalized_linear_model_cv_data) : path_result :=
  let start : List ℚ := [0, 0, 0]
  let lower_bound : List ℚ := [0.0, 0.0, 0.0]
  let upper_bound : List ℚ := [100.0, 10000.0, 10000.0]
  let rad_start : ℚ := 0.49
  let rad_end : ℚ := 1e-6
  let niter : Int := 1000
  match data.distribution_family with
  | family.GAUSSIAN =>
    let res := opt
      { loss := loss_function.edgenet_gaussian_loss_function, data := data,
        start := start, lower_bound := lower_bound, upper_bound := upper_bound,
        rad_start := rad_start, rad_end := rad_end, niter := niter }
    { parameters := res, folds := data.fold_ids }
  | _ =>
    let res := opt
      { loss := loss_function.edgenet_gaussian_loss_function, data := data,
        start := start, lower_bound := lower_bound, upper_bound := upper_bound,
        rad_start := rad_start, rad_end := rad_end, niter := niter }
    { parameters := res, folds := data.fold_ids }

/-! ## `netReg.cpp`: the entry points -/

/-- The family tag of a request: `CHAR(STRING_ELT(familys, 0)) == 'b' ?
"binomial" : "gaussian"`, read as a test of the first character of the tag;
the tag then names the `family` the container is built with. -/
def family_of_tag (familys : String) : family :=
  match familys.data with
  | 'b' :: _ => family.BINOMIAL
  | _ => family.GAUSSIAN

/-- The arguments of `cv_edgenet` (and of `cv_edgenet_`). -/
structure cv_request where
  XS : List ℚ
  YS : List ℚ
  GXS : List ℚ
  GYS : List ℚ
  ns : Nat
  ps : Nat
  qs : Nat
  psi_gxs : ℚ
  psi_gys : ℚ
  niters : Int
  threshs : ℚ
  nfolds : Int
  foldids : List Int
  lenfoldids : Int
  familys : String

/-- The local variables of `cv_edgenet` when it returns. -/
structure cv_locals where
  data : graph_penalized_linear_model_cv_data
  pop : List ℚ
  lamb_est : ℚ
  psi_gx_est : ℚ
  psi_gy_est : ℚ
  shrink : List ℚ
  folds : List Int
deriving DecidableEq

/-- The body of `cv_edgenet`.  Names the source uses without declaring them
are read as the declared variable they stand for: `n_foldid == n` is
`foldid_len == N`; `lamb_`, `psi_gx_`, `psi_gy_` are the three estimates
computed just above the copy; `INTEGER(folds)[i] = fold_ids` copies cell `i`
of `data.fold_ids()`, as the loop of `cv_edgenet_` does.  The call
`e.regularization_path(data, fam)` is the `regularization_path` of
`edgenet_model_selection_wrapper.cpp`, `pop` being its `parameters`. -/
def cv_edgenet_locals (opt : optim) (make_folds : Nat → Int → List Int)
    (junk : Nat → ℚ) (r : cv_request) : cv_locals :=
  let X := r.XS
  let Y := r.YS
  let GX := r.GXS
  let GY := r.GYS
  let N := r.ns
  let P := r.ps
  let Q := r.qs
  let psigx := r.psi_gxs
  let psigy := r.psi_gys
  let niter := r.niters
  let thresh := r.threshs
  let nfold := r.nfolds
  let fold_ids := r.foldids
  let foldid_len := r.lenfoldids
  let fam := family_of_tag r.familys
  let data :=
    if foldid_len = (N : Int) then
      graph_penalized_linear_model_cv_data.ctor_fold_ids junk
        X Y GX GY N P Q (-1) 1.0 psigx psigy niter thresh fold_ids fam
    else
      graph_penalized_linear_model_cv_data.ctor_nfold make_folds junk
        X Y GX GY N P Q (-1) 1.0 psigx psigy niter thresh nfold fam
  let pop := (regularization_path opt data).parameters
  let lamb_est := pop.getD 0 0
  let psi_gx_est := if psigx = -1 then pop.getD 1 0 else 0.0
  let psi_gy_est := if psigy = -1 then pop.getD 2 0 else 0.0
  let shrink := [lamb_est, psi_gx_est, psi_gy_est]
  let folds := (List.range N).map (fun i => data.fold_ids.getD i 0)
  { data := data, pop := pop, lamb_est := lamb_est, psi_gx_est := psi_gx_est,
    psi_gy_est := psi_gy_est, shrink := shrink, folds := folds }

/-- The named list `cv_edgenet` returns. -/
structure cv_output where
  shrinkage_parameters : List ℚ
  fold_ids : List Int
deriving DecidableEq

/-- The entry point `cv_edgenet`. -/
def cv_edgenet (opt : optim) (make_folds : Nat → Int → List Int)
    (junk : Nat → ℚ) (r : cv_request) : cv_output :=
  let l := cv_edgenet_locals opt make_folds junk r
  { shrinkage_parameters := l.shrink, fold_ids := l.folds }

/-- An optimizer that returns the point (1, 2, 3) whatever it is asked. -/
def sample_optim : optim := fun _ => [1, 2, 3]

/-- An optimizer that reports the loss it was instantiated with: the point
(0, 0, 0) for the Gaussian loss, (1, 1, 1) for the binomial loss. -/
def loss_probe : optim := fun c =>
  match c.loss with
  | loss_function.edgenet_gaussian_loss_function => [0, 0, 0]
  | loss_function.edgenet_binomial_loss_function => [1, 1, 1]

/-- A fold generator that assigns sample `i` to fold `i % nfold + 1`. -/
def sample_make_folds : Nat → Int → List Int :=
  fun n nfold => (List.range n).map (fun i => (i : Int) % nfold + 1)

/-- Fresh storage that happens to hold 9 in every cell. -/
def sample_junk : Nat → ℚ := fun _ => 9

/-- A model-selection request on 4 samples, 2 covariates, 1 response. -/
def sample_cv_request (psi_gxs psi_gys : ℚ) (foldids : List Int)
    (lenfoldids : Int) (familys : String) : cv_request :=
  { XS := [1, 2, 3, 4, 0, 1, 0, 1], YS := [1, 0, 1, 0],
    GXS := [0, 1, 1, 0], GYS := [0],
    ns := 4, ps := 2, qs := 1,
    psi_gxs := psi_gxs, psi_gys := psi_gys,
    niters := 100, threshs := 1e-5,
    nfolds := 2, foldids := foldids, lenfoldids := lenfoldids,
    familys := familys }

/-- A cross-validation container of the binomial family. -/
def binomial_cv_data : graph_penalized_linear_model_cv_data :=
  graph_penalized_linear_model_cv_data.ctor_fold_ids sample_junk
    [1, 2, 3, 4, 0, 1, 0, 1] [1, 0, 1, 0] [0, 1, 1, 0] [0] 4 2 1
    (-1) 1 (-1) (-1) 100 0 [2, 1, 2, 1] family.BINOMIAL

theorem index_lt {r c i j : Nat} (hi : i < r) (hj : j < c) : i + r * j < r * c := by
  calc i + r * j < r + r * j := by omega
    _ = r * (j + 1) := by ring
    _ ≤ r * c := Nat.mul_le_mul_left r hj

theorem index_mod {r i : Nat} (j : Nat) (hi : i < r) : (i + r * j) % r = i := by
  rw [Nat.add_mul_mod_self_left]; exact Nat.mod_eq_of_lt hi

theorem index_div {r i : Nat} (j : Nat) (hi : i < r) : (i + r * j) / r = j := by
  have hr : 0 < r := by omega
  rw [Nat.add_mul_div_left _ _ hr, Nat.div_eq_of_lt hi]; simp

theorem getD_map_range (f : Nat → ℚ) {m k : Nat} (hk : k < m) :
    ((List.range m).map f).getD k 0 = f k := by
  simp [List.getD_eq_getElem?_getD, hk]

theorem list_sum_map_range (f : Nat → ℚ) (n : Nat) :
    ((List.range n).map f).sum = ∑ s in Finset.range n, f s := by
  induction n with
  | zero => simp
  | succ m ih => rw [List.range_succ, List.map_append, List.sum_append, ih,
      Finset.sum_range_succ]; simp

theorem Mat.elem_t (M : Mat) {i s : Nat} (hi : i < M.n_cols) (hs : s < M.n_rows) :
    M.t.elem i s = M.elem s i := by
  have h : (Mat.t M).elem i s
      = ((List.range (M.n_cols * M.n_rows)).map
          (fun k => M.elem (k / M.n_cols) (k % M.n_cols))).getD (i + M.n_cols * s) 0 := rfl
  rw [h, getD_map_range _ (index_lt hi hs), index_mod s hi, index_div s hi]

theorem Mat.elem_mul (A B : Mat) {i j : Nat} (hi : i < A.n_rows) (hj : j < B.n_cols) :
    (A.mul B).elem i j = ∑ s in Finset.range A.n_cols, A.elem i s * B.elem s j := by
  have h : (A.mul B).elem i j
      = ((List.range (A.n_rows * B.n_cols)).map
          (fun k => ((List.range A.n_cols).map
            (fun s => A.elem (k % A.n_rows) s * B.elem s (k / A.n_rows))).sum)).getD
          (i + A.n_rows * j) 0 := rfl
  rw [h, getD_map_range _ (index_lt hi hj), index_mod j hi, index_div j hi]
  exact list_sum_map_range _ _

theorem Mat.elem_ones {p q i j : Nat} (hi : i < p) (hj : j < q) :
    (Mat.ones p q).elem i j = 1 := by
  unfold Mat.elem Mat.ones
  simp [List.getD_eq_getElem?_getD, List.getElem?_replicate, index_lt hi hj]

/-! ## The model data container -/

/-- C10. Immediately after construction (no sweep of the fitting engine has
run) the coefficient matrix is `p × q`, each of its `p * q` cells holds the
starting value 1, `coefficients(i, j)` is 1 for `i < p`, `j < q`, and the
intercept vector has length `q`.  Values of the model are rationals, so
every entry is finite. -/
theorem linear_model_data_initial_coefficients (junk : Nat → ℚ) (x y : List ℚ)
    (n p q : Nat) (niter : Int) (thresh : ℚ) (fam : family)
    (i j : Nat) (hi : i < p) (hj : j < q) :
    (linear_model_data.ctor junk x y n p q niter thresh fam).coefficients.n_rows = p ∧
    (linear_model_data.ctor junk x y n p q niter thresh fam).coefficients.n_cols = q ∧
    (linear_model_data.ctor junk x y n p q niter thresh fam).coefficients.mem
        = List.replicate (p * q) 1 ∧
    (∀ v ∈ (linear_model_data.ctor junk x y n p q niter thresh fam).coefficients.mem,
        v = 1) ∧
    (linear_model_data.ctor junk x y n p q niter thresh fam).coefficients_at i j = 1 ∧
    (linear_model_data.ctor junk x y n p q niter thresh fam).intercept.length = q := by
  refine ⟨rfl, rfl, rfl, ?_, ?_, ?_⟩
  · intro v hv
    have h : v ∈ List.replicate (p * q) (1 : ℚ) := hv
    exact (List.mem_replicate.mp h).2
  · exact Mat.elem_ones hi hj
  · simp [linear_model_data.intercept, linear_model_data.ctor, cvector_uninit]

/-- Witness for C10: a container with `p = 2`, `q = 3`. -/
theorem linear_model_data_initial_coefficients_witness :
    (1 < 2 ∧ 2 < 3) ∧
    (linear_model_data.ctor (fun _ => 9) [1, 2, 3, 4] [5, 6, 7, 8, 9, 10] 2 2 3 10 0
        family.GAUSSIAN).coefficients_at 1 2 = 1 :=
  ⟨by decide,
   (linear_model_data_initial_coefficients (fun _ => 9) [1, 2, 3, 4] [5, 6, 7, 8, 9, 10]
      2 2 3 10 0 family.GAUSSIAN 1 2 (by decide) (by decide)).2.2.2.2.1⟩

/-! ## Model selection -/

theorem map_range_getD_eq_self (l : List Int) (n : Nat) (h : l.length = n) :
    (List.range n).map (fun i => l.getD i 0) = l := by
  subst h
  apply List.ext_getElem
  · simp
  · intro k h1 h2
    simp [List.getD_eq_getElem?_getD, h2]

theorem regularization_path_call (opt : optim)
    (data : graph_penalized_linear_model_cv_data) :
    regularization_path opt data =
      { parameters := opt
          { loss := loss_function.edgenet_gaussian_loss_function, data := data,
            start := [0, 0, 0], lower_bound := [0, 0, 0],
            upper_bound := [100, 10000, 10000],
            rad_start := 49 / 100, rad_end := 1 / 1000000, niter := 1000 },
        folds := data.fold_ids } := by
  have h49 : (0.49 : ℚ) = 49 / 100 := by norm_num
  have h6 : (1e-6 : ℚ) = 1 / 1000000 := by norm_num
  have h0 : (0.0 : ℚ) = 0 := by norm_num
  have h100 : (100.0 : ℚ) = 100 := by norm_num
  have h10000 : (10000.0 : ℚ) = 10000 := by norm_num
  unfold regularization_path
  cases data.distribution_family <;> simp only [h49, h6, h0, h100, h10000]

/-- C2. In `cv_edgenet` the caller's fold-assignment vector builds the
cross-validation data when the supplied length equals the sample count `N`
(the container is the one of the fold-id constructor and holds the first
`N` supplied ids); for every other supplied length the container is the
one of the fold-count constructor, its assignment is the one generated from
`nfold`, and the supplied vector has no influence on it. -/
theorem cv_edgenet_fold_source (opt : optim) (make_folds : Nat → Int → List Int)
    (junk : Nat → ℚ) (r : cv_request) :
    (r.lenfoldids = (r.ns : Int) →
      (cv_edgenet_locals opt make_folds junk r).data =
          graph_penalized_linear_model_cv_data.ctor_fold_ids junk
            r.XS r.YS r.GXS r.GYS r.ns r.ps r.qs (-1) 1 r.psi_gxs r.psi_gys
            r.niters r.threshs r.foldids (family_of_tag r.familys) ∧
      (cv_edgenet_locals opt make_folds junk r).data.fold_ids =
          (List.range r.ns).map (fun i => r.foldids.getD i 0)) ∧
    (r.lenfoldids ≠ (r.ns : Int) →
      (cv_edgenet_locals opt make_folds junk r).data =
          graph_penalized_linear_model_cv_data.ctor_nfold make_folds junk
            r.XS r.YS r.GXS r.GYS r.ns r.ps r.qs (-1) 1 r.psi_gxs r.psi_gys
            r.niters r.threshs r.nfolds (family_of_tag r.familys) ∧
      (cv_edgenet_locals opt make_folds junk r).data.fold_ids =
          make_folds r.ns r.nfolds ∧
      ∀ ids : List Int,
        (cv_edgenet_locals opt make_folds junk { r with foldids := ids }).data =
          (cv_edgenet_locals opt make_folds junk r).data) := by
  have h1 : (1.0 : ℚ) = 1 := by norm_num
  constructor
  · intro h
    simp [cv_edgenet_locals, h, h1,
      graph_penalized_linear_model_cv_data.fold_ids,
      graph_penalized_linear_model_cv_data.ctor_fold_ids]
  · intro h
    simp [cv_edgenet_locals, h, h1,
      graph_penalized_linear_model_cv_data.fold_ids,
      graph_penalized_linear_model_cv_data.ctor_nfold]

/-- Witness for C2: a request on 4 samples with supplied length 4 (the
supplied ids are used) and one with supplied length 3 (the ids are
generated from `nfold = 2`). -/
theorem cv_edgenet_fold_source_witness :
    ((sample_cv_request 5 (-1) [2, 1, 2, 1] 4 "gaussian").lenfoldids = (4 : Int) ∧
      (cv_edgenet_locals sample_optim sample_make_folds sample_junk
        (sample_cv_request 5 (-1) [2, 1, 2, 1] 4 "gaussian")).data.fold_ids
        = (List.range 4).map (fun i => ([2, 1, 2, 1] : List Int).getD i 0)) ∧
    ((sample_cv_request 5 (-1) [2, 1, 2, 1] 3 "gaussian").lenfoldids ≠ (4 : Int) ∧
      (cv_edgenet_locals sample_optim sample_make_folds sample_junk
        (sample_cv_request 5 (-1) [2, 1, 2, 1] 3 "gaussian")).data.fold_ids
        = sample_make_folds 4 2) :=
  ⟨⟨by decide,
    ((cv_edgenet_fold_source sample_optim sample_make_folds sample_junk
      (sample_cv_request 5 (-1) [2, 1, 2, 1] 4 "gaussian")).1 (by decide)).2⟩,
   ⟨by decide,
    ((cv_edgenet_fold_source sample_optim sample_make_folds sample_junk
      (sample_cv_request 5 (-1) [2, 1, 2, 1] 3 "gaussian")).2 (by decide)).2.1⟩⟩

/-- C3. For a model-selection request whose supplied fold-assignment vector
has `N` cells (and is declared with that length), the `fold_ids` vector the
entry point returns has length `N` and equals the supplied vector cell for
cell; the `folds` entry of `regularization_path` is the same vector. -/
theorem cv_edgenet_returns_supplied_folds (opt : optim)
    (make_folds : Nat → Int → List Int) (junk : Nat → ℚ) (r : cv_request)
    (hlen : r.foldids.length = r.ns) (hdecl : r.lenfoldids = (r.ns : Int)) :
    (cv_edgenet opt make_folds junk r).fold_ids.length = r.ns ∧
    (cv_edgenet opt make_folds junk r).fold_ids = r.foldids ∧
    (∀ i, i < r.ns →
      (cv_edgenet opt make_folds junk r).fold_ids.getD i 0 = r.foldids.getD i 0) ∧
    (regularization_path opt (cv_edgenet_locals opt make_folds junk r).data).folds
      = r.foldids := by
  have hdata : (cv_edgenet_locals opt make_folds junk r).data.fold_ids = r.foldids := by
    have h : (cv_edgenet_locals opt make_folds junk r).data.fold_ids
        = (List.range r.ns).map (fun i => r.foldids.getD i 0) := by
      simp only [cv_edgenet_locals, hdecl, if_true,
        graph_penalized_linear_model_cv_data.fold_ids,
        graph_penalized_linear_model_cv_data.ctor_fold_ids]
    rw [h]
    exact map_range_getD_eq_self r.foldids r.ns hlen
  have hout : (cv_edgenet opt make_folds junk r).fold_ids = r.foldids := by
    have h : (cv_edgenet opt make_folds junk r).fold_ids
        = (List.range r.ns).map
            (fun i => (cv_edgenet_locals opt make_folds junk r).data.fold_ids.getD i 0) := rfl
    rw [h, hdata]
    exact map_range_getD_eq_self r.foldids r.ns hlen
  refine ⟨by rw [hout, hlen], hout, fun i _ => by rw [hout], ?_⟩
  rw [regularization_path_call]
  exact hdata

/-- Witness for C3: four samples with the supplied assignment 2, 1, 2, 1. -/
theorem cv_edgenet_returns_supplied_folds_witness :
    ((sample_cv_request 5 (-1) [2, 1, 2, 1] 4 "gaussian").foldids.length
        = (sample_cv_request 5 (-1) [2, 1, 2, 1] 4 "gaussian").ns ∧
      (sample_cv_request 5 (-1) [2, 1, 2, 1] 4 "gaussian").lenfoldids = (4 : Int)) ∧
    (cv_edgenet sample_optim sample_make_folds sample_junk
      (sample_cv_request 5 (-1) [2, 1, 2, 1] 4 "gaussian")).fold_ids = [2, 1, 2, 1] :=
  ⟨by decide,
   (cv_edgenet_returns_supplied_folds sample_optim sample_make_folds sample_junk
     (sample_cv_request 5 (-1) [2, 1, 2, 1] 4 "gaussian") (by decide) (by decide)).2.1⟩

/-- Counterexample to C4 as stated: with `psi_gx` supplied as the fixed value
5 the estimated `psi_gx` is 0, not 5 (the optimizer returned (1, 2, 3)). -/
theorem cv_edgenet_fixed_psi_counterexample :
    (sample_cv_request 5 (-1) [2, 1, 2, 1] 4 "gaussian").psi_gxs ≠ -1 ∧
    (cv_edgenet_locals sample_optim sample_make_folds sample_junk
      (sample_cv_request 5 (-1) [2, 1, 2, 1] 4 "gaussian")).psi_gx_est = 0 ∧
    (cv_edgenet_locals sample_optim sample_make_folds sample_junk
      (sample_cv_request 5 (-1) [2, 1, 2, 1] 4 "gaussian")).psi_gx_est
      ≠ (sample_cv_request 5 (-1) [2, 1, 2, 1] 4 "gaussian").psi_gxs ∧
    (cv_edgenet sample_optim sample_make_folds sample_junk
      (sample_cv_request 5 (-1) [2, 1, 2, 1] 4 "gaussian")).shrinkage_parameters
      = [1, 0, 3] := by
  decide!

/-- C4, amended. When `psi_gx` (respectively `psi_gy`) is supplied as a fixed
value `v ≠ -1`, the cross-validation data container is built with that
value, so the dimension is pinned for the search, and the `psi_gx`
(respectively `psi_gy`) component of the estimated triple is 0: the second
(third) cell of the returned vector is 0. -/
theorem cv_edgenet_fixed_psi (opt : optim) (make_folds : Nat → Int → List Int)
    (junk : Nat → ℚ) (r : cv_request) :
    (r.psi_gxs ≠ -1 →
      (cv_edgenet_locals opt make_folds junk r).data.model.psigx = r.psi_gxs ∧
      (cv_edgenet_locals opt make_folds junk r).psi_gx_est = 0 ∧
      (cv_edgenet opt make_folds junk r).shrinkage_parameters.getD 1 0 = 0) ∧
    (r.psi_gys ≠ -1 →
      (cv_edgenet_locals opt make_folds junk r).data.model.psigy = r.psi_gys ∧
      (cv_edgenet_locals opt make_folds junk r).psi_gy_est = 0 ∧
      (cv_edgenet opt make_folds junk r).shrinkage_parameters.getD 2 0 = 0) := by
  have hdx : (cv_edgenet_locals opt make_folds junk r).data.model.psigx = r.psi_gxs := by
    unfold cv_edgenet_locals
    by_cases h : r.lenfoldids = (r.ns : Int) <;>
      simp [h, graph_penalized_linear_model_cv_data.ctor_fold_ids,
        graph_penalized_linear_model_cv_data.ctor_nfold,
        graph_penalized_linear_model_data.ctor]
  have hdy : (cv_edgenet_locals opt make_folds junk r).data.model.psigy = r.psi_gys := by
    unfold cv_edgenet_locals
    by_cases h : r.lenfoldids = (r.ns : Int) <;>
      simp [h, graph_penalized_linear_model_cv_data.ctor_fold_ids,
        graph_penalized_linear_model_cv_data.ctor_nfold,
        graph_penalized_linear_model_data.ctor]
  constructor
  · intro h
    have hx : (cv_edgenet_locals opt make_folds junk r).psi_gx_est = 0 := by
      simp [cv_edgenet_locals, h]; norm_num
    refine ⟨hdx, hx, ?_⟩
    have hs : (cv_edgenet opt make_folds junk r).shrinkage_parameters.getD 1 0
        = (cv_edgenet_locals opt make_folds junk r).psi_gx_est := rfl
    rw [hs, hx]
  · intro h
    have hy : (cv_edgenet_locals opt make_folds junk r).psi_gy_est = 0 := by
      simp [cv_edgenet_locals, h]; norm_num
    refine ⟨hdy, hy, ?_⟩
    have hs : (cv_edgenet opt make_folds junk r).shrinkage_parameters.getD 2 0
        = (cv_edgenet_locals opt make_folds junk r).psi_gy_est := rfl
    rw [hs, hy]

/-- Witness for the amended C4: `psi_gx` fixed at 5 and `psi_gy` fixed at 7. -/
theorem cv_edgenet_fixed_psi_witness :
    ((sample_cv_request 5 7 [2, 1, 2, 1] 4 "gaussian").psi_gxs ≠ -1 ∧
      (cv_edgenet_locals sample_optim sample_make_folds sample_junk
        (sample_cv_request 5 7 [2, 1, 2, 1] 4 "gaussian")).data.model.psigx = 5 ∧
      (cv_edgenet_locals sample_optim sample_make_folds sample_junk
        (sample_cv_request 5 7 [2, 1, 2, 1] 4 "gaussian")).psi_gx_est = 0) ∧
    ((sample_cv_request 5 7 [2, 1, 2, 1] 4 "gaussian").psi_gys ≠ -1 ∧
      (cv_edgenet_locals sample_optim sample_make_folds sample_junk
        (sample_cv_request 5 7 [2, 1, 2, 1] 4 "gaussian")).data.model.psigy = 7 ∧
      (cv_edgenet_locals sample_optim sample_make_folds sample_junk
        (sample_cv_request 5 7 [2, 1, 2, 1] 4 "gaussian")).psi_gy_est = 0) :=
  ⟨⟨by decide!,
    ((cv_edgenet_fixed_psi sample_optim sample_make_folds sample_junk
      (sample_cv_request 5 7 [2, 1, 2, 1] 4 "gaussian")).1 (by decide!)).1,
    ((cv_edgenet_fixed_psi sample_optim sample_make_folds sample_junk
      (sample_cv_request 5 7 [2, 1, 2, 1] 4 "gaussian")).1 (by decide!)).2.1⟩,
   ⟨by decide!,
    ((cv_edgenet_fixed_psi sample_optim sample_make_folds sample_junk
      (sample_cv_request 5 7 [2, 1, 2, 1] 4 "gaussian")).2 (by decide!)).1,
    ((cv_edgenet_fixed_psi sample_optim sample_make_folds sample_junk
      (sample_cv_request 5 7 [2, 1, 2, 1] 4 "gaussian")).2 (by decide!)).2.1⟩⟩

/-- C5. For every model-selection request the container is built with
`lambda = -1` and the point `pop` is what the optimizer returns for that
container; when that point is `(a, b, c)` the estimated lambda is `a`, the
estimated `psi_gx` is `b` if `psi_gx` was supplied as -1, the estimated
`psi_gy` is `c` if `psi_gy` was supplied as -1, and the returned vector has
exactly the three cells (lambda, psi_gx, psi_gy) in this order. -/
theorem cv_edgenet_estimates (opt : optim) (make_folds : Nat → Int → List Int)
    (junk : Nat → ℚ) (r : cv_request) (a b c : ℚ)
    (hpop : (cv_edgenet_locals opt make_folds junk r).pop = [a, b, c]) :
    (cv_edgenet_locals opt make_folds junk r).data.model.lambda = -1 ∧
    (∃ call : bobyqa_call,
      call.data = (cv_edgenet_locals opt make_folds junk r).data ∧
      (cv_edgenet_locals opt make_folds junk r).pop = opt call) ∧
    (cv_edgenet_locals opt make_folds junk r).lamb_est = a ∧
    (r.psi_gxs = -1 → (cv_edgenet_locals opt make_folds junk r).psi_gx_est = b) ∧
    (r.psi_gys = -1 → (cv_edgenet_locals opt make_folds junk r).psi_gy_est = c) ∧
    (cv_edgenet opt make_folds junk r).shrinkage_parameters.length = 3 ∧
    (cv_edgenet opt make_folds junk r).shrinkage_parameters =
      [(cv_edgenet_locals opt make_folds junk r).lamb_est,
       (cv_edgenet_locals opt make_folds junk r).psi_gx_est,
       (cv_edgenet_locals opt make_folds junk r).psi_gy_est] := by
  have hl : (cv_edgenet_locals opt make_folds junk r).lamb_est
      = (cv_edgenet_locals opt make_folds junk r).pop.getD 0 0 := rfl
  have hx : (cv_edgenet_locals opt make_folds junk r).psi_gx_est
      = if r.psi_gxs = -1 then (cv_edgenet_locals opt make_folds junk r).pop.getD 1 0
        else 0.0 := rfl
  have hy : (cv_edgenet_locals opt make_folds junk r).psi_gy_est
      = if r.psi_gys = -1 then (cv_edgenet_locals opt make_folds junk r).pop.getD 2 0
        else 0.0 := rfl
  have hp : (cv_edgenet_locals opt make_folds junk r).pop
      = (regularization_path opt (cv_edgenet_locals opt make_folds junk r).data).parameters :=
    rfl
  refine ⟨?_, ?_, ?_, ?_, ?_, rfl, rfl⟩
  · unfold cv_edgenet_locals
    by_cases h : r.lenfoldids = (r.ns : Int) <;>
      simp [h, graph_penalized_linear_model_cv_data.ctor_fold_ids,
        graph_penalized_linear_model_cv_data.ctor_nfold,
        graph_penalized_linear_model_data.ctor]
  · rw [hp, regularization_path_call]
    exact ⟨_, rfl, rfl⟩
  · rw [hl, hpop]; rfl
  · intro h; rw [hx, hpop, if_pos h]; rfl
  · intro h; rw [hy, hpop, if_pos h]; rfl

/-- Witness for C5: both graph weights free, the optimizer returns (1, 2, 3). -/
theorem cv_edgenet_estimates_witness :
    (cv_edgenet_locals sample_optim sample_make_folds sample_junk
      (sample_cv_request (-1) (-1) [2, 1, 2, 1] 4 "gaussian")).pop = [1, 2, 3] ∧
    (cv_edgenet sample_optim sample_make_folds sample_junk
      (sample_cv_request (-1) (-1) [2, 1, 2, 1] 4 "gaussian")).shrinkage_parameters
      = [(cv_edgenet_locals sample_optim sample_make_folds sample_junk
          (sample_cv_request (-1) (-1) [2, 1, 2, 1] 4 "gaussian")).lamb_est,
         (cv_edgenet_locals sample_optim sample_make_folds sample_junk
          (sample_cv_request (-1) (-1) [2, 1, 2, 1] 4 "gaussian")).psi_gx_est,
         (cv_edgenet_locals sample_optim sample_make_folds sample_junk
          (sample_cv_request (-1) (-1) [2, 1, 2, 1] 4 "gaussian")).psi_gy_est] ∧
    (cv_edgenet sample_optim sample_make_folds sample_junk
      (sample_cv_request (-1) (-1) [2, 1, 2, 1] 4 "gaussian")).shrinkage_parameters
      = [1, 2, 3] :=
  ⟨by decide!,
   (cv_edgenet_estimates sample_optim sample_make_folds sample_junk
     (sample_cv_request (-1) (-1) [2, 1, 2, 1] 4 "gaussian") 1 2 3 (by decide!)).2.2.2.2.2.2,
   by decide!⟩

/-- C6. Whatever the data, `regularization_path` calls the optimizer with the
start point (0, 0, 0), the lower bound (0, 0, 0) and the upper bound
(100, 10000, 10000) for (lambda, psi_gx, psi_gy); each has three cells and
`lower ≤ start ≤ upper` holds in every component. -/
theorem regularization_path_fixed_bounds
    (data : graph_penalized_linear_model_cv_data) :
    ∃ call : bobyqa_call,
      (∀ opt : optim, (regularization_path opt data).parameters = opt call) ∧
      call.data = data ∧
      call.start = [0, 0, 0] ∧
      call.lower_bound = [0, 0, 0] ∧
      call.upper_bound = [100, 10000, 10000] ∧
      (∀ i, i < 3 →
        call.lower_bound.getD i 0 ≤ call.start.getD i 0 ∧
        call.start.getD i 0 ≤ call.upper_bound.getD i 0) := by
  refine ⟨_, fun opt => by rw [regularization_path_call], rfl, rfl, rfl, rfl, ?_⟩
  intro i hi
  have h : i = 0 ∨ i = 1 ∨ i = 2 := by omega
  rcases h with h | h | h <;> subst h <;> simp

/-- Counterexample to C8 as stated: for a container of the binomial family
the optimizer is instantiated with the Gaussian loss (the probe answers
(0, 0, 0)), and with no call that carries the binomial loss. -/
theorem regularization_path_binomial_counterexample :
    binomial_cv_data.distribution_family = family.BINOMIAL ∧
    (regularization_path loss_probe binomial_cv_data).parameters = [0, 0, 0] ∧
    ¬ ∃ call : bobyqa_call,
        call.loss = loss_function.edgenet_binomial_loss_function ∧
        ∀ opt : optim, (regularization_path opt binomial_cv_data).parameters = opt call := by
  refine ⟨by decide, by rw [regularization_path_call]; rfl, ?_⟩
  rintro ⟨call, hloss, hcall⟩
  have h := hcall loss_probe
  rw [regularization_path_call] at h
  have h2 : loss_probe call = [1, 1, 1] := by
    unfold loss_probe; rw [hloss]
  rw [h2] at h
  have h3 : ([0, 0, 0] : List ℚ) = [1, 1, 1] := h
  simp at h3

/-- C8, amended. For a container of either family, Gaussian or Binomial, the
objective `regularization_path` hands to the optimizer is the Gaussian
squared-error loss, bound to that container. -/
theorem regularization_path_gaussian_loss
    (data : graph_penalized_linear_model_cv_data) :
    ∃ call : bobyqa_call,
      (∀ opt : optim, (regularization_path opt data).parameters = opt call) ∧
      call.data = data ∧
      call.loss = loss_function.edgenet_gaussian_loss_function :=
  ⟨_, fun opt => by rw [regularization_path_call], rfl, rfl⟩

/-! ## The fit entry points -/

theorem ctor_txx_elem (junk : Nat → ℚ) (x y : List ℚ) (n p q : Nat)
    (niter : Int) (thresh : ℚ) (fam : family) {i j : Nat} (hi : i < p) (hj : j < p) :
    (linear_model_data.ctor junk x y n p q niter thresh fam).txx.elem i j
      = ∑ s in Finset.range n,
          (linear_model_data.ctor junk x y n p q niter thresh fam).design.elem s i *
          (linear_model_data.ctor junk x y n p q niter thresh fam).design.elem s j := by
  have hi2 : i < (Mat.ofBuffer x n p).t.n_rows := hi
  have hj2 : j < (Mat.ofBuffer x n p).n_cols := hj
  have h : (linear_model_data.ctor junk x y n p q niter thresh fam).txx.elem i j
      = ((Mat.ofBuffer x n p).t.mul (Mat.ofBuffer x n p)).elem i j := rfl
  rw [h, Mat.elem_mul _ _ hi2 hj2]
  refine Finset.sum_congr rfl ?_
  intro s hs
  have hs2 : s < (Mat.ofBuffer x n p).n_rows := Finset.mem_range.mp hs
  have hi3 : i < (Mat.ofBuffer x n p).n_cols := hi
  rw [Mat.elem_t _ hi3 hs2]
  rfl

/-- C12. Over exact arithmetic the cross-product matrix `TXX` built by the
constructor is symmetric, its diagonal entry `TXX(j, j)` is the sum of the
squares of column `j` of the design matrix and so is non-negative, and
`TXX(j, j) = 0` holds exactly when column `j` is entirely zero; a column
that holds one non-zero constant in at least one sample has a non-zero
diagonal entry. -/
theorem txx_symmetric_nonneg_diagonal (junk : Nat → ℚ) (x y : List ℚ) (n p q : Nat)
    (niter : Int) (thresh : ℚ) (fam : family) (i j : Nat) (hi : i < p) (hj : j < p) :
    (linear_model_data.ctor junk x y n p q niter thresh fam).txx.elem i j
      = (linear_model_data.ctor junk x y n p q niter thresh fam).txx.elem j i ∧
    (linear_model_data.ctor junk x y n p q niter thresh fam).txx.elem j j
      = ∑ s in Finset.range n,
          (linear_model_data.ctor junk x y n p q niter thresh fam).design.elem s j ^ 2 ∧
    0 ≤ (linear_model_data.ctor junk x y n p q niter thresh fam).txx.elem j j ∧
    ((linear_model_data.ctor junk x y n p q niter thresh fam).txx.elem j j = 0 ↔
      ∀ s, s < n →
        (linear_model_data.ctor junk x y n p q niter thresh fam).design.elem s j = 0) ∧
    (∀ c : ℚ, c ≠ 0 → 0 < n →
      (∀ s, s < n →
        (linear_model_data.ctor junk x y n p q niter thresh fam).design.elem s j = c) →
      (linear_model_data.ctor junk x y n p q niter thresh fam).txx.elem j j ≠ 0) := by
  have hsym : (linear_model_data.ctor junk x y n p q niter thresh fam).txx.elem i j
      = (linear_model_data.ctor junk x y n p q niter thresh fam).txx.elem j i := by
    rw [ctor_txx_elem junk x y n p q niter thresh fam hi hj,
      ctor_txx_elem junk x y n p q niter thresh fam hj hi]
    exact Finset.sum_congr rfl (fun s _ => mul_comm _ _)
  have hdiag : (linear_model_data.ctor junk x y n p q niter thresh fam).txx.elem j j
      = ∑ s in Finset.range n,
          (linear_model_data.ctor junk x y n p q niter thresh fam).design.elem s j ^ 2 := by
    rw [ctor_txx_elem junk x y n p q niter thresh fam hj hj]
    exact Finset.sum_congr rfl (fun s _ => (sq _).symm)
  have hnn : ∀ s ∈ Finset.range n,
      0 ≤ (linear_model_data.ctor junk x y n p q niter thresh fam).design.elem s j ^ 2 :=
    fun s _ => sq_nonneg _
  have hzero : (linear_model_data.ctor junk x y n p q niter thresh fam).txx.elem j j = 0 ↔
      ∀ s, s < n →
        (linear_model_data.ctor junk x y n p q niter thresh fam).design.elem s j = 0 := by
    rw [hdiag, Finset.sum_eq_zero_iff_of_nonneg hnn]
    constructor
    · intro h s hs
      exact pow_eq_zero_iff (two_ne_zero) |>.mp (h s (Finset.mem_range.mpr hs))
    · intro h s hs
      rw [h s (Finset.mem_range.mp hs)]
      norm_num
  refine ⟨hsym, hdiag, ?_, hzero, ?_⟩
  · rw [hdiag]; exact Finset.sum_nonneg hnn
  · intro c hc hn hcol h0
    have := hzero.mp h0 0 hn
    rw [hcol 0 hn] at this
    exact hc this

/-- Witness for C12: the `2 × 2` design with columns (1, 2) and (3, 4). -/
theorem txx_symmetric_nonneg_diagonal_witness :
    (0 < 2 ∧ 1 < 2) ∧
    (linear_model_data.ctor sample_junk [1, 2, 3, 4] [5, 6] 2 2 1 10 0
        family.GAUSSIAN).txx.elem 0 1
      = (linear_model_data.ctor sample_junk [1, 2, 3, 4] [5, 6] 2 2 1 10 0
        family.GAUSSIAN).txx.elem 1 0 ∧
    0 ≤ (linear_model_data.ctor sample_junk [1, 2, 3, 4] [5, 6] 2 2 1 10 0
        family.GAUSSIAN).txx.elem 1 1 ∧
    (linear_model_data.ctor sample_junk [1, 2, 3, 4] [5, 6] 2 2 1 10 0
        family.GAUSSIAN).txx.elem 1 1 = 25 ∧
    (linear_model_data.ctor sample_junk [2, 2, 0, 0] [5, 6] 2 2 1 10 0
        family.GAUSSIAN).txx = { n_rows := 2, n_cols := 2, mem := [8, 0, 0, 0] } :=
  ⟨by decide,
   (txx_symmetric_nonneg_diagonal sample_junk [1, 2, 3, 4] [5, 6] 2 2 1 10 0
      family.GAUSSIAN 0 1 (by decide) (by decide)).1,
   (txx_symmetric_nonneg_diagonal sample_junk [1, 2, 3, 4] [5, 6] 2 2 1 10 0
      family.GAUSSIAN 0 1 (by decide) (by decide)).2.2.1,
   by decide!, by decide!⟩

/-! ## The optimizer configuration -/

/-- C13. The configuration `regularization_path` gives the optimizer is
well-formed for a bound-constrained trust-region search:
`0 < rad_end < rad_start` with `rad_end = 1e-6` and `rad_start = 0.49`, in
each of the three dimensions the lower bound is below the upper bound and
`2 * rad_start` is below the width `upper - lower`, the start, lower and
upper vectors have three cells each, and the budget `niter = 1000` is
positive. -/
theorem regularization_path_configuration
    (data : graph_penalized_linear_model_cv_data) :
    ∃ call : bobyqa_call,
      (∀ opt : optim, (regularization_path opt data).parameters = opt call) ∧
      call.rad_start = 0.49 ∧ call.rad_end = 1e-6 ∧
      0 < call.rad_end ∧ call.rad_end < call.rad_start ∧
      (∀ i, i < 3 →
        call.lower_bound.getD i 0 < call.upper_bound.getD i 0 ∧
        2 * call.rad_start < call.upper_bound.getD i 0 - call.lower_bound.getD i 0) ∧
      call.start.length = 3 ∧ call.lower_bound.length = 3 ∧
      call.upper_bound.length = 3 ∧
      call.niter = 1000 ∧ 0 < call.niter := by
  refine ⟨{ loss := loss_function.edgenet_gaussian_loss_function, data := data,
            start := [0, 0, 0], lower_bound := [0, 0, 0],
            upper_bound := [100, 10000, 10000],
            rad_start := 49 / 100, rad_end := 1 / 1000000, niter := 1000 },
    fun opt => by rw [regularization_path_call], ?_, ?_, ?_, ?_, ?_,
    rfl, rfl, rfl, rfl, ?_⟩
  · norm_num
  · norm_num
  · norm_num
  · norm_num
  · intro i hi
    have h : i = 0 ∨ i = 1 ∨ i = 2 := by omega
    rcases h with h | h | h <;> subst h <;> norm_num
  · show (0 : Int) < 1000
    decide

end netreg
